import Mathlib

/-
Verification of `prefect.tasks.shell.ShellTask` (src/src/prefect/tasks/shell.py).

The Python class is shallowly embedded below.  Mutable Python dictionaries of
environment variables are modelled as insertion-ordered association lists
(`EnvMap`) with Python `dict` semantics for `__setitem__`/`update`/`copy`.
The OS-level process spawn consumed by `subprocess.check_output` is modelled
as an oracle `Spawn : SpawnConfig → SpawnOutcome`; `SpawnConfig` records the
keyword configuration of the `check_output` call made by the source (argument
vector, explicit environment, stderr redirection, stdin handling), and
`SpawnOutcome` is either completion with an exit status plus the combined
captured byte stream, or an OS-level error (e.g. shell binary not found).
`ShellTask.run` returns, besides the Python result/exception, the trace of
spawn invocations performed and the final values of every object the caller
shares with it, so that frame and no-spawn properties are statable.
-/

namespace PrefectShell

/-- An environment dictionary: insertion-ordered list of bindings, as a
Python `dict` of strings.  Keys are unique in any map built by `envSet`. -/
abbrev EnvMap := List (String × String)

/-- Python `d[key]` lookup (first binding wins; maps built by `envSet` have
unique keys, so this is the binding). -/
def envLookup : EnvMap → String → Option String
  | [], _ => none
  | (k, v) :: rest, key => if k = key then some v else envLookup rest key

/-- Python `d[k] = v`: replace the value in place if `k` is already bound
(keeping its position), otherwise append the new binding at the end. -/
def envSet : EnvMap → String → String → EnvMap
  | [], k, v => [(k, v)]
  | (k0, v0) :: rest, k, v =>
      if k0 = k then (k, v) :: rest else (k0, v0) :: envSet rest k v

/-- Python `d.update(o)`: set every binding of `o` into `d`, in order. -/
def envUpdate (d : EnvMap) (o : EnvMap) : EnvMap :=
  o.foldl (fun acc kv => envSet acc kv.1 kv.2) d

/-- Python `d.copy()`: a fresh dictionary with the same bindings (values are
immutable strings, so the copy is the same pure value). -/
def envCopy (d : EnvMap) : EnvMap := d

/-- The task object: the four configuration attributes stored by
`ShellTask.__init__` (shell.py lines 36-48). -/
structure ShellTask where
  command : Option String
  cd : Option String
  env : Option EnvMap
  shell : String
  deriving DecidableEq

/-- `ShellTask(command, cd, env, shell)` with every argument supplied
(shell.py lines 36-48: the constructor stores its arguments verbatim). -/
def ShellTask.init (command : Option String) (cd : Option String)
    (env : Option EnvMap) (shell : String) : ShellTask :=
  { command := command, cd := cd, env := env, shell := shell }

/-- `ShellTask(command, cd, env)` with the `shell` argument omitted: the
constructor default `shell: str = "bash"` (shell.py line 41) applies. -/
def ShellTask.initNoShell (command : Option String) (cd : Option String)
    (env : Option EnvMap) : ShellTask :=
  ShellTask.init command cd env "bash"

/-- How the child process's standard input is set up by the spawn call. -/
inductive StdinMode where
  /-- No `stdin` keyword passed: the child shares the parent's stdin. -/
  | inheritParent
  /-- `stdin=subprocess.DEVNULL`: the child gets no input. -/
  | devnull
  /-- `stdin=subprocess.PIPE`. -/
  | pipe
  deriving DecidableEq

/-- The configuration of one OS-level spawn, as determined by the keyword
arguments of the `subprocess.check_output` call in `ShellTask.run`
(shell.py lines 78-80). -/
structure SpawnConfig where
  /-- The argument vector handed to the OS. -/
  args : List String
  /-- The explicit environment (`env=` keyword); `none` means the keyword is
  absent and the parent environment would be inherited. -/
  env : Option EnvMap
  /-- Whether `stderr=subprocess.STDOUT` redirects stderr into the captured
  stdout stream. -/
  stderrToStdout : Bool
  /-- Standard-input handling. -/
  stdin : StdinMode
  deriving DecidableEq

/-- What the OS reports for one spawn: either the process ran to completion
with an exit status and the captured combined output bytes, or the spawn
itself failed at the OS level (e.g. the shell binary was not found). -/
inductive SpawnOutcome where
  | completed (returncode : Int) (output : List Nat)
  | osError (msg : String)
  deriving DecidableEq

/-- The OS-level spawn primitive, as an oracle mapping a spawn configuration
to its outcome. -/
abbrev Spawn := SpawnConfig → SpawnOutcome

/-- The exceptions `subprocess.check_output` can raise. -/
inductive CheckOutputError where
  /-- `subprocess.CalledProcessError`, carrying `returncode` and `output`. -/
  | calledProcessError (returncode : Int) (output : List Nat)
  /-- An `OSError` from the spawn itself (not caught by `check_output`). -/
  | osError (msg : String)
  deriving DecidableEq

/-- `subprocess.check_output(cfg.args, stderr=..., env=...)`: spawn the
process, wait for it, return the captured output if the exit status is 0,
raise `CalledProcessError(returncode, output)` otherwise; an OS-level spawn
failure propagates as the corresponding `OSError`. -/
def check_output (spawn : Spawn) (cfg : SpawnConfig) :
    Except CheckOutputError (List Nat) :=
  match spawn cfg with
  | SpawnOutcome.osError m => Except.error (CheckOutputError.osError m)
  | SpawnOutcome.completed rc out =>
      if rc = 0 then Except.ok out
      else Except.error (CheckOutputError.calledProcessError rc out)

/-- The exceptions `ShellTask.run` can let escape. -/
inductive RunError where
  /-- `TypeError` (shell.py line 70): the missing-command usage error. -/
  | typeError (msg : String)
  /-- `prefect.engine.signals.FAIL(msg)` (shell.py line 85). -/
  | fail (msg : String)
  /-- An uncaught `OSError` escaping from `subprocess.check_output`: the
  `except` clause on line 81 catches only `CalledProcessError`. -/
  | osError (msg : String)
  deriving DecidableEq

/-- Lower-case hexadecimal digit, as in Python's `\xHH` byte escapes. -/
def hexDigitChar (n : Nat) : Char :=
  if n < 10 then Char.ofNat (48 + n) else Char.ofNat (87 + n)

/-- How Python's `repr` of a `bytes` object renders one byte, given the
code of the quote character chosen for the literal: backslash and the quote
are backslash-escaped, tab / newline / carriage return use their two-letter
escapes, other printable ASCII bytes stand for themselves, and everything
else becomes a lower-case `\xHH` escape. -/
def pyByteEscape (quote : Nat) (b : Nat) : List Char :=
  if b = 92 then [Char.ofNat 92, Char.ofNat 92]
  else if b = quote then [Char.ofNat 92, Char.ofNat quote]
  else if b = 9 then [Char.ofNat 92, Char.ofNat 116]
  else if b = 10 then [Char.ofNat 92, Char.ofNat 110]
  else if b = 13 then [Char.ofNat 92, Char.ofNat 114]
  else if 32 ≤ b && b ≤ 126 then [Char.ofNat b]
  else [Char.ofNat 92, Char.ofNat 120, hexDigitChar (b / 16), hexDigitChar (b % 16)]

/-- Python's `str` of a `bytes` value, as produced by `"...{1}".format(exc.output)`
in shell.py lines 82-84: the repr `b` prefix, then the quoted escaped bytes.
Single quotes (byte 39) delimit the literal unless the bytes contain a single
quote and no double quote (byte 34), in which case double quotes delimit it. -/
def pyBytesRepr (bs : List Nat) : String :=
  let quote : Nat := if bs.contains 39 && ! bs.contains 34 then 34 else 39
  String.mk (Char.ofNat 98 :: Char.ofNat quote ::
    bs.foldr (fun b acc => pyByteEscape quote b ++ acc) [Char.ofNat quote])

/-- Command composition (shell.py lines 72-73): if `self.cd` is set, prepend
`"cd {} && ".format(self.cd)` to the command, else leave it unmodified. -/
def composeCmd (cd : Option String) (command : String) : String :=
  match cd with
  | none => command
  | some d => "cd " ++ d ++ " && " ++ command

/-- Environment composition (shell.py lines 75-76):
`current_env = os.environ.copy()` then `current_env.update(env or {})`.
In Python `env or \x7b\x7d` yields the empty dict both for `None` and for an
empty dict, which `Option.getD []` reproduces. -/
def composeEnv (environ : EnvMap) (env : Option EnvMap) : EnvMap :=
  let current_env := envCopy environ
  envUpdate current_env (env.getD [])

/-- Modelled from the spec: the `@defaults_from_attrs("command", "env")`
decorator on `ShellTask.run` is imported from `prefect.utilities.tasks`,
which is not part of this repository snapshot.  Per the spec (sections 6
and 9): the call-time value wins over the configuration default, and the
configuration default wins over absence; absence at both levels is absence. -/
def resolveParam {α : Type} (callValue defaultValue : Option α) : Option α :=
  match callValue with
  | some v => some v
  | none => defaultValue

/-- Everything observable about one invocation of `ShellTask.run`: the
returned value or escaped exception, the trace of OS spawns performed, and
the final values of the objects the caller shares with the invocation (the
task, the ambient `os.environ`, and the caller's `env` argument). -/
structure RunOutcome where
  result : Except RunError (List Nat)
  spawns : List SpawnConfig
  task : ShellTask
  environ : EnvMap
  envArg : Option EnvMap

/-- `ShellTask.run(self, command=..., env=...)` (shell.py lines 50-86),
with the ambient `os.environ` and the OS spawn primitive passed explicitly.
After the decorator resolves the two parameters against the stored
attributes: raise `TypeError` if the command is still `None`; prefix the
`cd` directory change; build `current_env` from a copy of `os.environ`
updated with the overrides; call `subprocess.check_output([self.shell,
"-c", command], stderr=subprocess.STDOUT, env=current_env)` (no `stdin`
keyword, so the child inherits the parent's stdin); on
`CalledProcessError` raise `FAIL` with the formatted message; let any other
exception propagate; otherwise return the captured bytes. -/
def ShellTask.run (spawn : Spawn) (environ : EnvMap) (self : ShellTask)
    (command0 : Option String) (env0 : Option EnvMap) : RunOutcome :=
  let command := resolveParam command0 self.command
  let env := resolveParam env0 self.env
  match command with
  | none =>
      { result := Except.error
          (RunError.typeError "run() missing required argument: 'command'"),
        spawns := [], task := self, environ := environ, envArg := env0 }
  | some command =>
      let command := composeCmd self.cd command
      let current_env := composeEnv environ env
      let cfg : SpawnConfig :=
        { args := [self.shell, "-c", command], env := some current_env,
          stderrToStdout := true, stdin := StdinMode.inheritParent }
      match check_output spawn cfg with
      | Except.ok out =>
          { result := Except.ok out, spawns := [cfg],
            task := self, environ := environ, envArg := env0 }
      | Except.error (CheckOutputError.calledProcessError rc out) =>
          { result := Except.error (RunError.fail
              ("Command failed with exit code " ++ toString rc ++ ": " ++
                pyBytesRepr out)),
            spawns := [cfg], task := self, environ := environ, envArg := env0 }
      | Except.error (CheckOutputError.osError m) =>
          { result := Except.error (RunError.osError m),
            spawns := [cfg], task := self, environ := environ, envArg := env0 }

/-! ### Association-list lemmas for the environment model -/

/-- Setting a binding changes exactly that key's lookup. -/
theorem envLookup_envSet (d : EnvMap) (k v key : String) :
    envLookup (envSet d k v) key = if k = key then some v else envLookup d key := by
  induction d with
  | nil => simp [envSet, envLookup]
  | cons hd rest ih =>
    obtain ⟨k0, v0⟩ := hd
    simp only [envSet]
    by_cases h0 : k0 = k
    · subst h0
      simp only [if_pos rfl, envLookup]
      by_cases hk : k0 = key <;> simp [hk]
    · rw [if_neg h0]
      simp only [envLookup]
      by_cases hk : k0 = key
      · subst hk
        rw [if_pos rfl, if_neg (fun h => h0 h.symm), if_pos rfl]
      · rw [if_neg hk, if_neg hk, ih]

/-- A key absent from the key list looks up to `none`. -/
theorem envLookup_eq_none (o : EnvMap) (key : String)
    (h : key ∉ o.map Prod.fst) : envLookup o key = none := by
  induction o with
  | nil => rfl
  | cons hd rest ih =>
    obtain ⟨k0, v0⟩ := hd
    simp only [List.map_cons, List.mem_cons] at h
    push_neg at h
    simp only [envLookup]
    rw [if_neg (fun hh => h.1 hh.symm)]
    exact ih h.2

/-- Lookup after a `dict.update`: a key bound by the overrides takes the
override value, any other key keeps the base dictionary's value (for
override dictionaries with unique keys, which every Python dict has). -/
theorem envLookup_envUpdate (d o : EnvMap) (h : (o.map Prod.fst).Nodup)
    (key : String) :
    envLookup (envUpdate d o) key = (envLookup o key).or (envLookup d key) := by
  induction o generalizing d with
  | nil => simp [envUpdate, envLookup, Option.or]
  | cons hd rest ih =>
    obtain ⟨k1, v1⟩ := hd
    simp only [List.map_cons, List.nodup_cons] at h
    have hstep : envUpdate d ((k1, v1) :: rest) = envUpdate (envSet d k1 v1) rest := rfl
    rw [hstep, ih (envSet d k1 v1) h.2, envLookup_envSet]
    simp only [envLookup]
    by_cases hk : k1 = key
    · subst hk
      rw [if_pos rfl, if_pos rfl, envLookup_eq_none rest k1 h.1]
      rfl
    · rw [if_neg hk, if_neg hk]

/-- When the command resolves, exactly one spawn happens, and its
configuration is the `check_output` call of shell.py lines 78-80. -/
theorem run_resolved_spawns (spawn : Spawn) (environ : EnvMap) (t : ShellTask)
    (c0 : Option String) (e0 : Option EnvMap) (c : String)
    (hres : resolveParam c0 t.command = some c) :
    (ShellTask.run spawn environ t c0 e0).spawns =
      [{ args := [t.shell, "-c", composeCmd t.cd c],
         env := some (composeEnv environ (resolveParam e0 t.env)),
         stderrToStdout := true, stdin := StdinMode.inheritParent }] := by
  unfold ShellTask.run
  rw [hres]
  dsimp only
  split <;> rfl

/-- When the command resolves, the result of `run` is determined by the
outcome of the one `check_output` call. -/
theorem run_result_of_resolved (spawn : Spawn) (environ : EnvMap)
    (t : ShellTask) (c0 : Option String) (e0 : Option EnvMap) (c : String)
    (hres : resolveParam c0 t.command = some c) :
    (ShellTask.run spawn environ t c0 e0).result =
      match check_output spawn
        { args := [t.shell, "-c", composeCmd t.cd c],
          env := some (composeEnv environ (resolveParam e0 t.env)),
          stderrToStdout := true, stdin := StdinMode.inheritParent } with
      | Except.ok out => Except.ok out
      | Except.error (CheckOutputError.calledProcessError rc out) =>
          Except.error (RunError.fail
            ("Command failed with exit code " ++ toString rc ++ ": " ++
              pyBytesRepr out))
      | Except.error (CheckOutputError.osError m) =>
          Except.error (RunError.osError m) := by
  unfold ShellTask.run
  rw [hres]
  dsimp only
  split <;> rfl

/-! ### Concrete inputs for witnesses -/

/-- A spawn oracle whose process prints `hi\n` and exits with status 0. -/
def demoSpawn : Spawn := fun _ => SpawnOutcome.completed 0 [104, 105, 10]

/-- A spawn oracle whose spawn fails at the OS level. -/
def demoSpawnOsError : Spawn :=
  fun _ => SpawnOutcome.osError "FileNotFoundError: bash"

/-- A small ambient `os.environ`. -/
def demoEnviron : EnvMap := [("PATH", "/usr/bin"), ("HOME", "/root")]

/-- Overrides replacing `PATH` and adding `FOO`. -/
def demoOverrides : EnvMap := [("FOO", "bar"), ("PATH", "/opt/bin")]

/-- `ShellTask(command="echo hi", cd="/tmp", env=demoOverrides)`. -/
def demoTask : ShellTask :=
  ShellTask.init (some "echo hi") (some "/tmp") (some demoOverrides) "bash"

/-- `ShellTask()` with every constructor default. -/
def demoTaskBare : ShellTask := ShellTask.init none none none "bash"

/-! ### The claims -/

/-- C1: with the command resolved, if the spawned subprocess completes with
exit code 0 then `run` returns the captured combined output bytes unchanged
and raises nothing, and if it completes with a non-zero exit code then `run`
raises `FAIL` whose message renders that exact exit code and that exact
combined output as `Command failed with exit code code: output`; the failure
is raised if and only if the exit code is non-zero. -/
theorem run_exit_code_classification (spawn : Spawn) (environ : EnvMap)
    (t : ShellTask) (c0 : Option String) (e0 : Option EnvMap) (c : String)
    (rc : Int) (out : List Nat)
    (hres : resolveParam c0 t.command = some c)
    (hspawn : spawn
      { args := [t.shell, "-c", composeCmd t.cd c],
        env := some (composeEnv environ (resolveParam e0 t.env)),
        stderrToStdout := true, stdin := StdinMode.inheritParent } =
      SpawnOutcome.completed rc out) :
    (ShellTask.run spawn environ t c0 e0).result =
      if rc = 0 then Except.ok out
      else Except.error (RunError.fail
        ("Command failed with exit code " ++ toString rc ++ ": " ++
          pyBytesRepr out)) := by
  unfold ShellTask.run
  rw [hres]
  dsimp only
  rw [check_output, hspawn]
  by_cases h0 : rc = 0 <;> simp [h0]

/-- Witness for C1 at a concrete task, command and spawn outcome. -/
theorem run_exit_code_classification_witness :
    (ShellTask.run demoSpawn demoEnviron demoTaskBare (some "pwd") none).result =
      if (0 : Int) = 0 then Except.ok [104, 105, 10]
      else Except.error (RunError.fail
        ("Command failed with exit code " ++ toString (0 : Int) ++ ": " ++
          pyBytesRepr [104, 105, 10])) :=
  run_exit_code_classification demoSpawn demoEnviron demoTaskBare
    (some "pwd") none "pwd" 0 [104, 105, 10] rfl rfl

/-- C2: when the command is absent both at call time and in the stored
configuration, `run` raises the `TypeError` usage error, spawns no
subprocess, and that error kind is distinct from the non-zero-exit `FAIL`
error kind. -/
theorem run_missing_command (spawn : Spawn) (environ : EnvMap)
    (t : ShellTask) (e0 : Option EnvMap) (h : t.command = none) :
    (ShellTask.run spawn environ t none e0).result =
      Except.error
        (RunError.typeError "run() missing required argument: 'command'")
    ∧ (ShellTask.run spawn environ t none e0).spawns = []
    ∧ (∀ m1 m2, RunError.typeError m1 ≠ RunError.fail m2) := by
  refine ⟨?_, ?_, fun m1 m2 hcon => RunError.noConfusion hcon⟩ <;>
    simp [ShellTask.run, resolveParam, h]

/-- Witness for C2: a task constructed with no command, called with none. -/
theorem run_missing_command_witness :
    (ShellTask.run demoSpawn demoEnviron demoTaskBare none none).result =
      Except.error
        (RunError.typeError "run() missing required argument: 'command'")
    ∧ (ShellTask.run demoSpawn demoEnviron demoTaskBare none none).spawns = []
    ∧ (∀ m1 m2, RunError.typeError m1 ≠ RunError.fail m2) :=
  run_missing_command demoSpawn demoEnviron demoTaskBare none rfl

/-- C3: the string handed to the shell is the resolved command unmodified
when no working directory is configured, and is exactly
`cd dir && command` when one is configured. -/
theorem run_command_composition (spawn : Spawn) (environ : EnvMap)
    (t : ShellTask) (c0 : Option String) (e0 : Option EnvMap) (c : String)
    (hres : resolveParam c0 t.command = some c) :
    ((ShellTask.run spawn environ t c0 e0).spawns).map SpawnConfig.args =
      [[t.shell, "-c", composeCmd t.cd c]]
    ∧ composeCmd none c = c
    ∧ (∀ d, composeCmd (some d) c = "cd " ++ d ++ " && " ++ c) := by
  refine ⟨?_, rfl, fun d => rfl⟩
  rw [run_resolved_spawns spawn environ t c0 e0 c hres]
  rfl

/-- Witness for C3 at a task configured with a working directory. -/
theorem run_command_composition_witness :
    ((ShellTask.run demoSpawn demoEnviron demoTask none none).spawns).map
        SpawnConfig.args =
      [[demoTask.shell, "-c", composeCmd demoTask.cd "echo hi"]]
    ∧ composeCmd none "echo hi" = "echo hi"
    ∧ (∀ d, composeCmd (some d) "echo hi" = "cd " ++ d ++ " && " ++ "echo hi") :=
  run_command_composition demoSpawn demoEnviron demoTask none none "echo hi" rfl

/-- C4: the environment handed to the subprocess is a copy of the inherited
environment with every override key set to its override value; keys outside
the overrides keep their inherited value, no override deletes an inherited
variable, and with no overrides the inherited environment passes through
unchanged. -/
theorem composeEnv_overrides (environ O : EnvMap)
    (h : (O.map Prod.fst).Nodup) :
    (∀ key, envLookup (composeEnv environ (some O)) key =
        (envLookup O key).or (envLookup environ key))
    ∧ composeEnv environ none = environ
    ∧ (∀ key v, envLookup environ key = some v →
        (envLookup (composeEnv environ (some O)) key).isSome = true) := by
  have hmain : ∀ key, envLookup (composeEnv environ (some O)) key =
      (envLookup O key).or (envLookup environ key) :=
    fun key => envLookup_envUpdate environ O h key
  refine ⟨hmain, rfl, fun key v hv => ?_⟩
  rw [hmain key, hv]
  cases envLookup O key <;> rfl

/-- Witness for C4 at a concrete environment and override mapping. -/
theorem composeEnv_overrides_witness :
    (∀ key, envLookup (composeEnv demoEnviron (some demoOverrides)) key =
        (envLookup demoOverrides key).or (envLookup demoEnviron key))
    ∧ composeEnv demoEnviron none = demoEnviron
    ∧ (∀ key v, envLookup demoEnviron key = some v →
        (envLookup (composeEnv demoEnviron (some demoOverrides)) key).isSome
          = true) :=
  composeEnv_overrides demoEnviron demoOverrides (by decide)

/-- C5 counterexample: the claim says the spawned subprocess inherits no
stdin, but the `check_output` call passes no `stdin` keyword, so the child
shares the parent's standard input: at a concrete invocation, the single
spawned configuration has `stdin = inheritParent`. -/
theorem run_stdin_not_redirected :
    ¬ (∀ cfg ∈ (ShellTask.run demoSpawn demoEnviron demoTaskBare
          (some "pwd") none).spawns,
        cfg.stdin ≠ StdinMode.inheritParent) := by
  decide

/-- C5 (amended): every invocation that reaches the spawn invokes the
subprocess with argument vector `[shell, "-c", composedCommand]` where the
constructor's shell defaults to `bash`, with the composed environment as
the sole explicit process environment, with stderr redirected into the one
captured output stream, and with standard input inherited from the parent
process (no stdin redirection). -/
theorem run_spawn_call_shape (spawn : Spawn) (environ : EnvMap)
    (t : ShellTask) (c0 : Option String) (e0 : Option EnvMap) (c : String)
    (hres : resolveParam c0 t.command = some c) :
    (ShellTask.run spawn environ t c0 e0).spawns =
      [{ args := [t.shell, "-c", composeCmd t.cd c],
         env := some (composeEnv environ (resolveParam e0 t.env)),
         stderrToStdout := true, stdin := StdinMode.inheritParent }]
    ∧ (∀ c1 d1 e1, (ShellTask.initNoShell c1 d1 e1).shell = "bash") :=
  ⟨run_resolved_spawns spawn environ t c0 e0 c hres, fun _ _ _ => rfl⟩

/-- Witness for the amended C5 at a concrete invocation. -/
theorem run_spawn_call_shape_witness :
    (ShellTask.run demoSpawn demoEnviron demoTask none none).spawns =
      [{ args := [demoTask.shell, "-c", composeCmd demoTask.cd "echo hi"],
         env := some (composeEnv demoEnviron (resolveParam none demoTask.env)),
         stderrToStdout := true, stdin := StdinMode.inheritParent }]
    ∧ (∀ c1 d1 e1, (ShellTask.initNoShell c1 d1 e1).shell = "bash") :=
  run_spawn_call_shape demoSpawn demoEnviron demoTask none none "echo hi" rfl

/-- C6: an OS-level spawn failure is not swallowed: the `except` clause
catches only `CalledProcessError`, so the `OSError` reported by the spawn
primitive escapes `run` unchanged. -/
theorem run_spawn_os_error_propagates (spawn : Spawn) (environ : EnvMap)
    (t : ShellTask) (c0 : Option String) (e0 : Option EnvMap) (c : String)
    (m : String)
    (hres : resolveParam c0 t.command = some c)
    (hspawn : spawn
      { args := [t.shell, "-c", composeCmd t.cd c],
        env := some (composeEnv environ (resolveParam e0 t.env)),
        stderrToStdout := true, stdin := StdinMode.inheritParent } =
      SpawnOutcome.osError m) :
    (ShellTask.run spawn environ t c0 e0).result =
      Except.error (RunError.osError m) := by
  unfold ShellTask.run
  rw [hres]
  dsimp only
  rw [check_output, hspawn]

/-- Witness for C6 with a spawn oracle whose shell binary is missing. -/
theorem run_spawn_os_error_propagates_witness :
    (ShellTask.run demoSpawnOsError demoEnviron demoTask none none).result =
      Except.error (RunError.osError "FileNotFoundError: bash") :=
  run_spawn_os_error_propagates demoSpawnOsError demoEnviron demoTask
    none none "echo hi" "FileNotFoundError: bash" rfl rfl

/-- C7: parameter resolution is two-tier for both `command` and `env`: a
supplied call-time value wins, an omitted one falls back to the
construction-time value, absence at both levels stays absent; consequently
calling `run` with both parameters omitted behaves exactly like calling it
with the construction-time values supplied. -/
theorem run_two_tier_resolution (v : String) (d : Option String)
    (spawn : Spawn) (environ : EnvMap) (t : ShellTask) :
    resolveParam (some v) d = some v
    ∧ resolveParam (none : Option String) d = d
    ∧ (ShellTask.run spawn environ t none none).result =
        (ShellTask.run spawn environ t t.command t.env).result
    ∧ (ShellTask.run spawn environ t none none).spawns =
        (ShellTask.run spawn environ t t.command t.env).spawns := by
  obtain ⟨tc, tcd, te, ts⟩ := t
  refine ⟨rfl, rfl, ?_, ?_⟩
  · cases tc with
    | none => rfl
    | some c =>
      rw [run_result_of_resolved spawn environ
          (ShellTask.mk (some c) tcd te ts) none none c rfl,
        run_result_of_resolved spawn environ
          (ShellTask.mk (some c) tcd te ts) (some c) te c rfl]
      cases te <;> rfl
  · cases tc with
    | none => rfl
    | some c =>
      rw [run_resolved_spawns spawn environ
          (ShellTask.mk (some c) tcd te ts) none none c rfl,
        run_resolved_spawns spawn environ
          (ShellTask.mk (some c) tcd te ts) (some c) te c rfl]
      cases te <;> rfl

/-- C8: `run` is a function of its inputs and of the spawn primitive's
behaviour: two invocations against spawn primitives that agree on every
spawn configuration produce identical outcomes (same success or failure
classification, byte-identical output, same spawn trace). -/
theorem run_deterministic (spawn1 spawn2 : Spawn) (environ : EnvMap)
    (t : ShellTask) (c0 : Option String) (e0 : Option EnvMap)
    (h : ∀ cfg, spawn1 cfg = spawn2 cfg) :
    ShellTask.run spawn1 environ t c0 e0 =
      ShellTask.run spawn2 environ t c0 e0 := by
  rw [show spawn1 = spawn2 from funext h]

/-- Witness for C8: the same spawn behaviour twice at a concrete call. -/
theorem run_deterministic_witness :
    ShellTask.run demoSpawn demoEnviron demoTask (some "pwd") none =
      ShellTask.run demoSpawn demoEnviron demoTask (some "pwd") none :=
  run_deterministic demoSpawn demoSpawn demoEnviron demoTask (some "pwd")
    none (fun _ => rfl)

/-- The stored task configuration is returned unchanged by every branch. -/
theorem run_task_unchanged (spawn : Spawn) (environ : EnvMap)
    (t : ShellTask) (c0 : Option String) (e0 : Option EnvMap) :
    (ShellTask.run spawn environ t c0 e0).task = t := by
  unfold ShellTask.run
  dsimp only
  split
  · rfl
  · split <;> rfl

/-- The ambient environment is returned unchanged by every branch. -/
theorem run_environ_unchanged (spawn : Spawn) (environ : EnvMap)
    (t : ShellTask) (c0 : Option String) (e0 : Option EnvMap) :
    (ShellTask.run spawn environ t c0 e0).environ = environ := by
  unfold ShellTask.run
  dsimp only
  split
  · rfl
  · split <;> rfl

/-- The caller's override mapping is returned unchanged by every branch. -/
theorem run_envArg_unchanged (spawn : Spawn) (environ : EnvMap)
    (t : ShellTask) (c0 : Option String) (e0 : Option EnvMap) :
    (ShellTask.run spawn environ t c0 e0).envArg = e0 := by
  unfold ShellTask.run
  dsimp only
  split
  · rfl
  · split <;> rfl

/-- C9: every invocation leaves the task configuration fields, the ambient
process environment, and the caller-supplied override mapping exactly as it
found them: the subprocess environment is composed on a copy, and nothing
the invocation builds outlives the returned outcome. -/
theorem run_preserves_shared_state (spawn : Spawn) (environ : EnvMap)
    (t : ShellTask) (c0 : Option String) (e0 : Option EnvMap) :
    (ShellTask.run spawn environ t c0 e0).task = t
    ∧ (ShellTask.run spawn environ t c0 e0).task.command = t.command
    ∧ (ShellTask.run spawn environ t c0 e0).task.cd = t.cd
    ∧ (ShellTask.run spawn environ t c0 e0).task.env = t.env
    ∧ (ShellTask.run spawn environ t c0 e0).task.shell = t.shell
    ∧ (ShellTask.run spawn environ t c0 e0).environ = environ
    ∧ (ShellTask.run spawn environ t c0 e0).envArg = e0 := by
  have ht := run_task_unchanged spawn environ t c0 e0
  exact ⟨ht, by rw [ht], by rw [ht], by rw [ht], by rw [ht],
    run_environ_unchanged spawn environ t c0 e0,
    run_envArg_unchanged spawn environ t c0 e0⟩

/-- C10: an empty-string command is a present command: `run` does not raise
the missing-command `TypeError` and does spawn exactly one subprocess. -/
theorem run_empty_command (spawn : Spawn) (environ : EnvMap)
    (t : ShellTask) (c0 : Option String) (e0 : Option EnvMap)
    (hres : resolveParam c0 t.command = some "") :
    (ShellTask.run spawn environ t c0 e0).spawns =
      [{ args := [t.shell, "-c", composeCmd t.cd ""],
         env := some (composeEnv environ (resolveParam e0 t.env)),
         stderrToStdout := true, stdin := StdinMode.inheritParent }]
    ∧ (∀ m, (ShellTask.run spawn environ t c0 e0).result ≠
        Except.error (RunError.typeError m)) := by
  refine ⟨run_resolved_spawns spawn environ t c0 e0 "" hres, fun m => ?_⟩
  rw [run_result_of_resolved spawn environ t c0 e0 "" hres]
  split
  · exact fun hcon => Except.noConfusion hcon
  · exact fun hcon => RunError.noConfusion (Except.error.inj hcon)
  · exact fun hcon => RunError.noConfusion (Except.error.inj hcon)

/-- Witness for C10: the empty command supplied at call time. -/
theorem run_empty_command_witness :
    (ShellTask.run demoSpawn demoEnviron demoTaskBare (some "") none).spawns =
      [{ args := [demoTaskBare.shell, "-c", composeCmd demoTaskBare.cd ""],
         env := some (composeEnv demoEnviron (resolveParam none demoTaskBare.env)),
         stderrToStdout := true, stdin := StdinMode.inheritParent }]
    ∧ (∀ m, (ShellTask.run demoSpawn demoEnviron demoTaskBare
        (some "") none).result ≠ Except.error (RunError.typeError m)) :=
  run_empty_command demoSpawn demoEnviron demoTaskBare (some "") none rfl

end PrefectShell
